import Mathlib

/-!
Verification of the meeting-notes summarizer backend (`src/backend/main.py`).

The backend is a FastAPI service over a MongoDB store.  We shallowly embed
the handlers as pure Lean functions over an explicit store state:

* a MongoDB document collection becomes a `List` of records; `find_one`
  becomes first-match search, `update_one` updates the first match,
  `delete_one` deletes the first match, `insert_one` appends;
* `datetime.utcnow()` becomes an explicit `now : Nat` parameter;
* `uuid.uuid4()` becomes an explicit fresh-id parameter;
* raising `HTTPException` becomes returning `Except HTTPError _`;
* the SMTP transport (`send_email_smtp`) becomes an oracle
  `transport : String → String → String → Except String Unit`
  (recipient, subject, body ↦ success or error text);
* fallibility of the audit-log insert (`db.email_logs.insert_one`) becomes
  a boolean `logOk`, and fallibility of the initial `find_one` in the
  email handler (a store fault escaping the outer `try`) becomes an
  optional fault message `storeFault`;
* Python truthiness of `Optional[str]` values (`None` and `""` are falsy)
  is modelled explicitly by `pyTruthyStr`.
-/

namespace MeetingNotes

/-- A transcript document, mirroring the dict built in `create_transcript`. -/
structure Transcript where
  id : String
  title : String
  original_text : String
  custom_prompt : Option String
  generated_summary : Option String
  edited_summary : Option String
  created_at : Nat
  updated_at : Option Nat
deriving Repr, DecidableEq

/-- One entry of the `failed_emails` list: `{"email": ..., "error": ...}`. -/
structure FailedEmail where
  email : String
  error : String
deriving Repr, DecidableEq

/-- An email-log document.  The loop-completion log (main.py lines 314-324)
sets `sent_count`/`failed_count`/`failed_emails` and leaves `error` absent;
the top-level failure log (lines 355-363) sets `error` and leaves the
count fields absent.  Absent dict keys are modelled as `none`. -/
structure EmailLog where
  id : String
  transcript_id : String
  recipients : List String
  subject : Option String
  sent_at : Nat
  status : String
  sent_count : Option Nat
  failed_count : Option Nat
  failed_emails : Option (List FailedEmail)
  error : Option String
deriving Repr, DecidableEq

/-- The two collections of the `meeting_notes` database. -/
structure DB where
  transcripts : List Transcript
  email_logs : List EmailLog
deriving Repr, DecidableEq

/-- `raise HTTPException(status_code, detail)`. -/
structure HTTPError where
  status_code : Nat
  detail : String
deriving Repr, DecidableEq

/-- `str(e)` on a FastAPI `HTTPException`: "code: detail". -/
def HTTPError.text (e : HTTPError) : String :=
  toString e.status_code ++ ": " ++ e.detail

/-- Python truthiness of an `Optional[str]`: `None` and `""` are falsy. -/
def pyTruthyStr : Option String → Bool
  | none => false
  | some s => s ≠ ""

/-- Python `a or b` on `Optional[str]` values: yields `a` when `a` is
truthy, otherwise `b` (even when `b` is also falsy). -/
def pyOr (a b : Option String) : Option String :=
  if pyTruthyStr a then a else b

/-- Mongo `find_one(filter)`: the first document matching the filter. -/
def findOne (p : α → Bool) (l : List α) : Option α :=
  l.find? p

/-- Mongo `update_one(filter, {"$set": ...})`: update the first match. -/
def updateOne (p : α → Bool) (f : α → α) : List α → List α
  | [] => []
  | x :: xs => if p x then f x :: xs else x :: updateOne p f xs

/-- Mongo `delete_one(filter)`: remove the first match; `none` when the
reported `deleted_count` is `0`. -/
def deleteOne (p : α → Bool) : List α → Option (List α)
  | [] => none
  | x :: xs => if p x then some xs else (deleteOne p xs).map (x :: ·)

/-- Filter matching a transcript id, as in `{"id": transcript_id}`. -/
def byId (tid : String) (t : Transcript) : Bool :=
  t.id == tid

/-- Default value of `TranscriptCreate.custom_prompt`. -/
def defaultPrompt : String :=
  "Summarize this meeting transcript in a clear, structured format with key points and action items."

/-- Request body of `POST /api/transcripts` (`TranscriptCreate`); a missing
`custom_prompt` arrives as `some defaultPrompt` via the pydantic default. -/
structure TranscriptCreate where
  title : String
  original_text : String
  custom_prompt : Option String
deriving Repr, DecidableEq

/-- Request body of `POST /api/transcripts/{id}/email` (`EmailRequest`);
a missing `subject` arrives as `some "Meeting Summary"` via the default. -/
structure EmailRequest where
  recipients : List String
  subject : Option String
deriving Repr, DecidableEq

/-- `create_transcript` (main.py lines 164-186): build the document with
`generated_summary = edited_summary = None`, `updated_at = None`, and
insert it.  An insert failure (e.g. the unique index on `id` rejecting a
duplicate) surfaces as a 500. -/
def create_transcript (db : DB) (req : TranscriptCreate) (newId : String)
    (now : Nat) : Except HTTPError Transcript × DB :=
  let doc : Transcript :=
    { id := newId
      title := req.title
      original_text := req.original_text
      custom_prompt := req.custom_prompt
      generated_summary := none
      edited_summary := none
      created_at := now
      updated_at := none }
  if db.transcripts.any (fun t => t.id == newId) then
    (.error ⟨500, "Database error: duplicate key"⟩, db)
  else
    (.ok doc, { db with transcripts := db.transcripts ++ [doc] })

/-- Body of the `try` in `get_transcript` (main.py lines 203-207):
`find_one`, raise 404 when absent, else return the record. -/
def get_transcript_body (db : DB) (tid : String) : Except HTTPError Transcript :=
  match findOne (byId tid) db.transcripts with
  | none => .error ⟨404, "Transcript not found"⟩
  | some t => .ok t

/-- `get_transcript` (main.py lines 200-210): the broad
`except Exception` catches every exception raised in the body — including
the handler's own 404 `HTTPException` — and re-raises it as a 500
"Database error".  -/
def get_transcript (db : DB) (tid : String) : Except HTTPError Transcript :=
  match get_transcript_body db tid with
  | .error e => .error ⟨500, "Database error: " ++ e.text⟩
  | .ok t => .ok t

/-- `update_summary` (main.py lines 250-275): look the transcript up, then
`$set` `edited_summary` and `updated_at` on the first match.  As in
`get_transcript`, the outer `except Exception` rewraps the 404 raised for
an absent id into a 500. -/
def update_summary (db : DB) (tid : String) (edited : String) (now : Nat) :
    Except HTTPError String × DB :=
  match findOne (byId tid) db.transcripts with
  | none =>
      (.error ⟨500, "Database error: " ++ HTTPError.text ⟨404, "Transcript not found"⟩⟩, db)
  | some _ =>
      let ts := updateOne (byId tid)
        (fun t => { t with edited_summary := some edited, updated_at := some now })
        db.transcripts
      (.ok "Summary updated successfully", { db with transcripts := ts })

/-- `delete_transcript` (main.py lines 374-380): `delete_one`, 404 when
`deleted_count == 0`.  This handler has no `try`/`except`, so the 404
reaches the caller unwrapped. -/
def delete_transcript (db : DB) (tid : String) : Except HTTPError String × DB :=
  match deleteOne (byId tid) db.transcripts with
  | none => (.error ⟨404, "Transcript not found"⟩, db)
  | some ts => (.ok "Transcript deleted successfully", { db with transcripts := ts })

/-- Summary resolution in `send_email` (main.py line 289):
`transcript.get("edited_summary") or transcript.get("generated_summary")`.
Python `or` falls through on falsy values, so an empty-string
`edited_summary` yields `generated_summary`. -/
def resolveSummary (t : Transcript) : Option String :=
  pyOr t.edited_summary t.generated_summary

/-- The email body composed in `send_email` (main.py lines 294-301): the
f-string with the title and the resolved summary, `.strip()`ped (the
literal text surrounding the placeholders makes the strip remove exactly
the leading newline and the trailing newline-plus-indent). -/
def emailBody (title summary : String) : String :=
  "Meeting Summary: " ++ title ++ "\n\n" ++ summary ++
    "\n\n---\nThis summary was generated by AI Meeting Notes Summarizer"

/-- The subject passed to the dispatcher for one recipient (main.py
line 307): `email_request.subject or f"Meeting Summary: {title}"`. -/
def subjectFor (reqSubject : Option String) (title : String) : String :=
  match pyOr reqSubject (some ("Meeting Summary: " ++ title)) with
  | some s => s
  | none => ""

/-- The per-recipient delivery loop of `send_email` (main.py lines
303-311): for each recipient in order, call `send_email_smtp` inside its
own `try`; on success append the address to `sent_emails`, on exception
append `{"email": ..., "error": str(e)}` to `failed_emails`.  Returns
`(sent_emails, failed_emails)`. -/
def sendLoop (transport : String → String → String → Except String Unit)
    (subject body : String) : List String → List String × List FailedEmail
  | [] => ([], [])
  | r :: rs =>
    let rest := sendLoop transport subject body rs
    match transport r subject body with
    | .ok _ => (r :: rest.1, rest.2)
    | .error e => (rest.1, ⟨r, e⟩ :: rest.2)

/-- Success response of `send_email` (main.py lines 332-346): the
`failed_emails` key is present only when some recipient failed. -/
structure SendResponse where
  message : String
  recipients : List String
  subject : Option String
  sent_emails : List String
  failed_emails : Option (List FailedEmail)
deriving Repr, DecidableEq

/-- The `email_log` dict built after the loop (main.py lines 314-324). -/
def campaignLog (tid : String) (req : EmailRequest)
    (sent_emails : List String) (failed_emails : List FailedEmail)
    (now : Nat) (logId : String) : EmailLog :=
  { id := logId
    transcript_id := tid
    recipients := req.recipients
    subject := req.subject
    sent_at := now
    status := if failed_emails.isEmpty then "sent" else "partial"
    sent_count := some sent_emails.length
    failed_count := some failed_emails.length
    failed_emails := some failed_emails
    error := none }

/-- The part of `send_email` from the loop onwards (main.py lines
303-346), reached once the transcript is found and a non-empty summary is
resolved: run the delivery loop, build and (best-effort) insert the
EmailLog, and build the success response — the `failed_emails` key is
present in the response only when some recipient failed. -/
def send_email_go (db : DB) (tid : String) (req : EmailRequest)
    (transport : String → String → String → Except String Unit)
    (logOk : Bool) (now : Nat) (logId : String)
    (transcript : Transcript) (summary_to_send : String) :
    Except HTTPError SendResponse × DB :=
  let body := emailBody transcript.title summary_to_send
  let subj := subjectFor req.subject transcript.title
  let outcome := sendLoop transport subj body req.recipients
  let sent_emails := outcome.1
  let failed_emails := outcome.2
  let log : EmailLog := campaignLog tid req sent_emails failed_emails now logId
  let db' := if logOk then { db with email_logs := db.email_logs ++ [log] } else db
  if failed_emails.isEmpty then
    (.ok { message := "Email sent successfully to " ++
             toString sent_emails.length ++ " recipients"
           recipients := req.recipients
           subject := req.subject
           sent_emails := sent_emails
           failed_emails := none }, db')
  else
    (.ok { message := "Email sent to " ++ toString sent_emails.length ++
             " recipients, failed for " ++ toString failed_emails.length
           recipients := req.recipients
           subject := req.subject
           sent_emails := sent_emails
           failed_emails := some failed_emails }, db')

/-- `send_email` (main.py lines 277-372).

Parameters beyond the request: `transport` is the SMTP oracle
(recipient, subject, body); `logOk` says whether the
`db.email_logs.insert_one` of this invocation succeeds (its failure is
caught and only printed); `now` and `logId` stand for `datetime.utcnow()`
and `uuid.uuid4()`; `storeFault = some msg` means the initial `find_one`
raises a database error with text `msg`, which escapes to the outer
`except`, writes the status-`failed` log (best effort) and re-raises as a
500.

Control flow of the source: the 404 (transcript absent) and the 400 (no
summary) are `HTTPException`s, re-raised unchanged by the
`isinstance(e, HTTPException)` guard in the outer `except` *before* the
failure-log block, so they write no log and leave the store unchanged. -/
def send_email (db : DB) (tid : String) (req : EmailRequest)
    (transport : String → String → String → Except String Unit)
    (logOk : Bool) (now : Nat) (logId : String) (storeFault : Option String) :
    Except HTTPError SendResponse × DB :=
  match storeFault with
  | some msg =>
      let failLog : EmailLog :=
        { id := logId
          transcript_id := tid
          recipients := req.recipients
          subject := req.subject
          sent_at := now
          status := "failed"
          sent_count := none
          failed_count := none
          failed_emails := none
          error := some msg }
      let db' := if logOk then { db with email_logs := db.email_logs ++ [failLog] } else db
      (.error ⟨500, "Failed to send email: " ++ msg⟩, db')
  | none =>
    match findOne (byId tid) db.transcripts with
    | none => (.error ⟨404, "Transcript not found"⟩, db)
    | some transcript =>
      match resolveSummary transcript with
      | none => (.error ⟨400, "No summary available to send"⟩, db)
      | some summary_to_send =>
        if summary_to_send = "" then
          (.error ⟨400, "No summary available to send"⟩, db)
        else
          send_email_go db tid req transport logOk now logId transcript summary_to_send

/-- The summary a truthy resolution yields (`""` is never the value on
the send path, the default only totalizes the function). -/
def summaryText (t : Transcript) : String :=
  (resolveSummary t).getD ""

/-- Whether the transport delivers to recipient `r` (the per-recipient
`try` succeeds). -/
def deliveryOk (transport : String → String → String → Except String Unit)
    (subj body r : String) : Bool :=
  match transport r subj body with
  | .ok _ => true
  | .error _ => false

/-- The error text recorded for a failing recipient (`str(e)`). -/
def deliveryErr (transport : String → String → String → Except String Unit)
    (subj body r : String) : String :=
  match transport r subj body with
  | .ok _ => ""
  | .error e => e

/-! ## Helper lemmas -/

theorem sendLoop_fst (tr : String → String → String → Except String Unit)
    (subj body : String) (rs : List String) :
    (sendLoop tr subj body rs).1 = rs.filter (deliveryOk tr subj body) := by
  induction rs with
  | nil => rfl
  | cons r rs ih =>
    simp only [sendLoop, List.filter]
    cases h : tr r subj body <;> simp [deliveryOk, h, ih]

theorem sendLoop_snd (tr : String → String → String → Except String Unit)
    (subj body : String) (rs : List String) :
    (sendLoop tr subj body rs).2
      = (rs.filter (fun r => !deliveryOk tr subj body r)).map
          (fun r => ⟨r, deliveryErr tr subj body r⟩) := by
  induction rs with
  | nil => rfl
  | cons r rs ih =>
    simp only [sendLoop, List.filter]
    cases h : tr r subj body <;> simp [deliveryOk, deliveryErr, h, ih]

theorem sendLoop_length (tr : String → String → String → Except String Unit)
    (subj body : String) (rs : List String) :
    (sendLoop tr subj body rs).1.length + (sendLoop tr subj body rs).2.length
      = rs.length := by
  induction rs with
  | nil => rfl
  | cons r rs ih =>
    simp only [sendLoop]
    cases h : tr r subj body <;> simp [List.length] <;> omega

theorem send_email_eq_go (db : DB) (tid : String) (req : EmailRequest)
    (tr : String → String → String → Except String Unit)
    (logOk : Bool) (now : Nat) (logId : String) (t : Transcript)
    (ht : findOne (byId tid) db.transcripts = some t)
    (hs : pyTruthyStr (resolveSummary t) = true) :
    send_email db tid req tr logOk now logId none
      = send_email_go db tid req tr logOk now logId t (summaryText t) := by
  match hrs : resolveSummary t with
  | none => rw [hrs] at hs; simp [pyTruthyStr] at hs
  | some s =>
    rw [hrs] at hs
    have hne : s ≠ "" := by simpa [pyTruthyStr] using hs
    simp only [send_email, ht, hrs, summaryText, Option.getD, if_neg hne]

theorem find?_decomp {α : Type} {p : α → Bool} {l : List α} {t : α}
    (h : l.find? p = some t) :
    ∃ pre post, l = pre ++ t :: post ∧ (∀ x ∈ pre, p x = false) ∧ p t = true := by
  induction l with
  | nil => simp [List.find?] at h
  | cons x xs ih =>
    cases hx : p x with
    | true =>
      have hxt : x = t := by
        rw [List.find?_cons_of_pos _ hx] at h
        exact Option.some.inj h
      subst hxt
      exact ⟨[], xs, rfl, by simp, hx⟩
    | false =>
      rw [List.find?_cons_of_neg _ (by simp [hx])] at h
      obtain ⟨pre, post, hl, hpre, hpt⟩ := ih h
      refine ⟨x :: pre, post, by simp [hl], ?_, hpt⟩
      intro y hy
      rcases List.mem_cons.mp hy with rfl | hy
      · exact hx
      · exact hpre y hy

theorem updateOne_decomp {α : Type} {p : α → Bool} (f : α → α)
    {pre : List α} (post : List α) {t : α}
    (hpre : ∀ x ∈ pre, p x = false) (hpt : p t = true) :
    updateOne p f (pre ++ t :: post) = pre ++ f t :: post := by
  induction pre with
  | nil => simp [updateOne, hpt]
  | cons x xs ih =>
    have hx : p x = false := hpre x (by simp)
    simp only [List.cons_append, updateOne, hx]
    simp [ih (fun y hy => hpre y (by simp [hy]))]

theorem deleteOne_decomp {α : Type} {p : α → Bool}
    {pre : List α} (post : List α) {t : α}
    (hpre : ∀ x ∈ pre, p x = false) (hpt : p t = true) :
    deleteOne p (pre ++ t :: post) = some (pre ++ post) := by
  induction pre with
  | nil => simp [deleteOne, hpt]
  | cons x xs ih =>
    have hx : p x = false := hpre x (by simp)
    simp only [List.cons_append, deleteOne, hx]
    simp [ih (fun y hy => hpre y (by simp [hy]))]

theorem find?_append_notfound {α : Type} {p : α → Bool} {l : List α}
    (h : ∀ x ∈ l, p x = false) (l' : List α) :
    (l ++ l').find? p = l'.find? p := by
  induction l with
  | nil => rfl
  | cons x xs ih =>
    have hx : p x = false := h x (by simp)
    simp only [List.cons_append, List.find?, hx]
    exact ih (fun y hy => h y (by simp [hy]))

theorem send_email_go_logs (db : DB) (tid : String) (req : EmailRequest)
    (tr : String → String → String → Except String Unit)
    (logOk : Bool) (now : Nat) (logId : String) (t : Transcript) (s : String) :
    (send_email_go db tid req tr logOk now logId t s).2.email_logs
      = if logOk then
          db.email_logs ++
            [campaignLog tid req
              (sendLoop tr (subjectFor req.subject t.title)
                (emailBody t.title s) req.recipients).1
              (sendLoop tr (subjectFor req.subject t.title)
                (emailBody t.title s) req.recipients).2 now logId]
        else db.email_logs := by
  by_cases hE : (sendLoop tr (subjectFor req.subject t.title)
      (emailBody t.title s) req.recipients).2.isEmpty <;>
    cases logOk <;> simp [send_email_go, hE]

theorem send_email_go_fst (db : DB) (tid : String) (req : EmailRequest)
    (tr : String → String → String → Except String Unit)
    (logOk : Bool) (now : Nat) (logId : String) (t : Transcript) (s : String) :
    (send_email_go db tid req tr logOk now logId t s).1
      = .ok { message :=
                if (sendLoop tr (subjectFor req.subject t.title)
                      (emailBody t.title s) req.recipients).2.isEmpty then
                  "Email sent successfully to " ++
                    toString (sendLoop tr (subjectFor req.subject t.title)
                      (emailBody t.title s) req.recipients).1.length ++ " recipients"
                else
                  "Email sent to " ++
                    toString (sendLoop tr (subjectFor req.subject t.title)
                      (emailBody t.title s) req.recipients).1.length ++
                    " recipients, failed for " ++
                    toString (sendLoop tr (subjectFor req.subject t.title)
                      (emailBody t.title s) req.recipients).2.length
              recipients := req.recipients
              subject := req.subject
              sent_emails := (sendLoop tr (subjectFor req.subject t.title)
                (emailBody t.title s) req.recipients).1
              failed_emails :=
                if (sendLoop tr (subjectFor req.subject t.title)
                      (emailBody t.title s) req.recipients).2.isEmpty then none
                else some (sendLoop tr (subjectFor req.subject t.title)
                  (emailBody t.title s) req.recipients).2 } := by
  by_cases hE : (sendLoop tr (subjectFor req.subject t.title)
      (emailBody t.title s) req.recipients).2.isEmpty <;>
    simp [send_email_go, hE]

/-! ## Fixtures used by the witnesses -/

/-- A transcript with a generated summary only. -/
def exT : Transcript :=
  { id := "t1"
    title := "Standup"
    original_text := "we met"
    custom_prompt := some defaultPrompt
    generated_summary := some "sum"
    edited_summary := none
    created_at := 5
    updated_at := none }

/-- A transcript with neither summary. -/
def exT2 : Transcript :=
  { exT with id := "t2", generated_summary := none }

/-- A transcript whose two summary fields are both the empty string. -/
def exT3 : Transcript :=
  { exT with id := "t3", generated_summary := some "", edited_summary := some "" }

/-- A transcript with an empty edited summary and a usable generated one. -/
def exT4 : Transcript :=
  { exT with id := "t4", edited_summary := some "" }

/-- A pre-existing email log referencing `exT`. -/
def exLog : EmailLog :=
  { id := "L0"
    transcript_id := "t1"
    recipients := ["a@x.com"]
    subject := some "Meeting Summary"
    sent_at := 1
    status := "sent"
    sent_count := some 1
    failed_count := some 0
    failed_emails := some []
    error := none }

/-- A store holding the four fixture transcripts and one log. -/
def exDB : DB :=
  { transcripts := [exT, exT2, exT3, exT4], email_logs := [exLog] }

/-- A two-recipient request. -/
def exReq : EmailRequest :=
  { recipients := ["a@x.com", "b@x.com"], subject := some "Meeting Summary" }

/-- A transport that fails exactly for `b@x.com`. -/
def exTransport : String → String → String → Except String Unit :=
  fun r _ _ => if r = "b@x.com" then .error "boom" else .ok ()

/-! ## Claims -/

/-- Claim C2: for every email-send request on an existing transcript whose
`edited_summary` and `generated_summary` are both absent, the operation
fails with the 400 no-summary (bad-input) error and the store is returned
unchanged — no EmailLog is written.  The transport oracle `tr` is
universally quantified and absent from the right-hand side, so the result
does not depend on it: no delivery is attempted to any recipient. -/
theorem C2_no_summary_aborts (db : DB) (tid : String) (req : EmailRequest)
    (tr : String → String → String → Except String Unit)
    (logOk : Bool) (now : Nat) (logId : String) (t : Transcript)
    (ht : findOne (byId tid) db.transcripts = some t)
    (he : t.edited_summary = none) (hg : t.generated_summary = none) :
    send_email db tid req tr logOk now logId none
      = (.error ⟨400, "No summary available to send"⟩, db) := by
  simp [send_email, ht, resolveSummary, pyOr, pyTruthyStr, he, hg]

/-- Witness for C2 at the fixture transcript `exT2` (no summaries). -/
theorem C2_no_summary_aborts_witness :
    findOne (byId "t2") exDB.transcripts = some exT2 ∧
    exT2.edited_summary = none ∧
    exT2.generated_summary = none ∧
    send_email exDB "t2" exReq exTransport true 9 "L9" none
      = (.error ⟨400, "No summary available to send"⟩, exDB) :=
  ⟨by decide, rfl, rfl,
   C2_no_summary_aborts exDB "t2" exReq exTransport true 9 "L9" exT2
     (by decide) rfl rfl⟩

/-- Claim C3 (code bug): `get_transcript` raises its 404 `HTTPException`
inside its own `try`, and the broad `except Exception` catches it and
re-raises it as a 500 "Database error" — so an unknown transcript id is
reported as a server error, not as a not-found response.  The theorem
evaluates both the handler body (which does raise the 404) and the full
handler (which converts it to a 500) on an empty store. -/
theorem C3_notfound_reported_as_500 :
    get_transcript_body ⟨[], []⟩ "missing"
      = .error ⟨404, "Transcript not found"⟩ ∧
    get_transcript ⟨[], []⟩ "missing"
      = .error ⟨500, "Database error: 404: Transcript not found"⟩ := by
  exact ⟨rfl, rfl⟩

/-- Claim C10: summary resolution uses Python truthiness
(`edited or generated`), so an empty-string `edited_summary` is treated
as absent — the generated summary is resolved (and is the one whose text
reaches the delivery loop) — and when both fields are the empty string
the request fails with the 400 no-summary error even though both fields
are present (non-null).  The store is unchanged in the failing case. -/
theorem C10_empty_string_summary (db : DB) (tid : String) (req : EmailRequest)
    (tr : String → String → String → Except String Unit)
    (logOk : Bool) (now : Nat) (logId : String) (t : Transcript)
    (ht : findOne (byId tid) db.transcripts = some t)
    (he : t.edited_summary = some "") :
    resolveSummary t = t.generated_summary ∧
    (∀ g, t.generated_summary = some g → g ≠ "" →
      send_email db tid req tr logOk now logId none
        = send_email_go db tid req tr logOk now logId t g) ∧
    (t.generated_summary = some "" →
      t.edited_summary ≠ none ∧
      t.generated_summary ≠ none ∧
      send_email db tid req tr logOk now logId none
        = (.error ⟨400, "No summary available to send"⟩, db)) := by
  have hres : resolveSummary t = t.generated_summary := by
    simp [resolveSummary, pyOr, pyTruthyStr, he]
  refine ⟨hres, ?_, ?_⟩
  · intro g hg hne
    simp [send_email, ht, hres, hg, hne]
  · intro hg
    refine ⟨by simp [he], by simp [hg], ?_⟩
    simp [send_email, ht, hres, hg]

/-- Witness for C10 at the fixture transcripts `exT4` (empty edited,
usable generated) and `exT3` (both summaries empty). -/
theorem C10_empty_string_summary_witness :
    (findOne (byId "t4") exDB.transcripts = some exT4 ∧
      exT4.edited_summary = some "" ∧
      resolveSummary exT4 = exT4.generated_summary ∧
      send_email exDB "t4" exReq exTransport true 9 "L9" none
        = send_email_go exDB "t4" exReq exTransport true 9 "L9" exT4 "sum") ∧
    (findOne (byId "t3") exDB.transcripts = some exT3 ∧
      exT3.edited_summary = some "" ∧
      exT3.generated_summary = some "" ∧
      send_email exDB "t3" exReq exTransport true 9 "L9" none
        = (.error ⟨400, "No summary available to send"⟩, exDB)) :=
  ⟨⟨by decide, rfl,
    (C10_empty_string_summary exDB "t4" exReq exTransport true 9 "L9" exT4
      (by decide) rfl).1,
    (C10_empty_string_summary exDB "t4" exReq exTransport true 9 "L9" exT4
      (by decide) rfl).2.1 "sum" rfl (by decide)⟩,
   ⟨by decide, rfl, rfl,
    ((C10_empty_string_summary exDB "t3" exReq exTransport true 9 "L9" exT3
      (by decide) rfl).2.2 rfl).2.2⟩⟩

theorem send_email_logs_statuses (db : DB) (tid : String) (req : EmailRequest)
    (tr : String → String → String → Except String Unit)
    (logOk : Bool) (now : Nat) (logId : String) (sf : Option String)
    (l : EmailLog)
    (hl : l ∈ (send_email db tid req tr logOk now logId sf).2.email_logs) :
    l ∈ db.email_logs ∨ l.status = "sent" ∨ l.status = "partial"
      ∨ l.status = "failed" := by
  cases sf with
  | some msg =>
    cases logOk with
    | false => exact .inl hl
    | true =>
      simp only [send_email, if_pos] at hl
      rcases List.mem_append.mp hl with h | h
      · exact .inl h
      · right; right; right
        rw [List.mem_singleton.mp h]
  | none =>
    cases hfo : findOne (byId tid) db.transcripts with
    | none => simp only [send_email, hfo] at hl; exact .inl hl
    | some t =>
      cases hrs : resolveSummary t with
      | none => simp only [send_email, hfo, hrs] at hl; exact .inl hl
      | some s =>
        by_cases hse : s = ""
        · simp only [send_email, hfo, hrs, hse, if_pos] at hl
          exact .inl hl
        · simp only [send_email, hfo, hrs, if_neg hse] at hl
          rw [send_email_go_logs] at hl
          cases logOk with
          | false => exact .inl (by simpa using hl)
          | true =>
            rw [if_pos rfl] at hl
            rcases List.mem_append.mp hl with h | h
            · exact .inl h
            · rw [List.mem_singleton.mp h]
              by_cases hE : (sendLoop tr (subjectFor req.subject t.title)
                  (emailBody t.title s) req.recipients).2.isEmpty
              · right; left; simp [campaignLog, hE]
              · right; right; left; simp [campaignLog, hE]

/-- Claim C1: for every email-send invocation that reaches the delivery
loop with at least one recipient, the persisted EmailLog status is `sent`
when every recipient's delivery succeeded and `partial` when some
succeeded and some failed; a log written on this path never carries
`failed` (that value is written only by the top-level failure path, where
the operation could not proceed at all); and across all invocations the
only statuses ever written are `sent`, `partial` and `failed`. -/
theorem C1_log_status_classification (db : DB) (tid : String)
    (req : EmailRequest)
    (tr : String → String → String → Except String Unit)
    (now : Nat) (logId : String) (t : Transcript)
    (ht : findOne (byId tid) db.transcripts = some t)
    (hs : pyTruthyStr (resolveSummary t) = true)
    (_hr : req.recipients ≠ []) :
    (∃ log : EmailLog,
      (send_email db tid req tr true now logId none).2.email_logs
        = db.email_logs ++ [log] ∧
      ((∀ r ∈ req.recipients,
          deliveryOk tr (subjectFor req.subject t.title)
            (emailBody t.title (summaryText t)) r = true) →
        log.status = "sent") ∧
      (((∃ r ∈ req.recipients,
          deliveryOk tr (subjectFor req.subject t.title)
            (emailBody t.title (summaryText t)) r = true) ∧
        (∃ r ∈ req.recipients,
          deliveryOk tr (subjectFor req.subject t.title)
            (emailBody t.title (summaryText t)) r = false)) →
        log.status = "partial") ∧
      log.status ≠ "failed") ∧
    (∀ (db₂ : DB) (tid₂ : String) (req₂ : EmailRequest)
        (tr₂ : String → String → String → Except String Unit)
        (logOk₂ : Bool) (now₂ : Nat) (logId₂ : String) (sf₂ : Option String)
        (l : EmailLog),
      l ∈ (send_email db₂ tid₂ req₂ tr₂ logOk₂ now₂ logId₂ sf₂).2.email_logs →
      l ∈ db₂.email_logs ∨ l.status = "sent" ∨ l.status = "partial"
        ∨ l.status = "failed") := by
  refine ⟨?_, send_email_logs_statuses⟩
  rw [send_email_eq_go db tid req tr true now logId t ht hs]
  refine ⟨campaignLog tid req
    (sendLoop tr (subjectFor req.subject t.title)
      (emailBody t.title (summaryText t)) req.recipients).1
    (sendLoop tr (subjectFor req.subject t.title)
      (emailBody t.title (summaryText t)) req.recipients).2 now logId,
    by rw [send_email_go_logs]; simp, ?_, ?_, ?_⟩
  · intro hall
    have hnil : (sendLoop tr (subjectFor req.subject t.title)
        (emailBody t.title (summaryText t)) req.recipients).2 = [] := by
      rw [sendLoop_snd]
      have : req.recipients.filter (fun r => !deliveryOk tr
          (subjectFor req.subject t.title)
          (emailBody t.title (summaryText t)) r) = [] := by
        rw [List.filter_eq_nil_iff]
        intro r hrm
        simp [hall r hrm]
      simp [this]
    simp [campaignLog, hnil]
  · rintro ⟨-, r₂, hr₂, hfail⟩
    have hne : (sendLoop tr (subjectFor req.subject t.title)
        (emailBody t.title (summaryText t)) req.recipients).2 ≠ [] := by
      rw [sendLoop_snd]
      intro hnil
      rcases List.map_eq_nil_iff.mp hnil with hfil
      have : r₂ ∈ req.recipients.filter (fun r => !deliveryOk tr
          (subjectFor req.subject t.title)
          (emailBody t.title (summaryText t)) r) :=
        List.mem_filter.mpr ⟨hr₂, by simp [hfail]⟩
      simp [hfil] at this
    simp [campaignLog, List.isEmpty_iff, hne]
  · by_cases hE : (sendLoop tr (subjectFor req.subject t.title)
        (emailBody t.title (summaryText t)) req.recipients).2.isEmpty <;>
      simp [campaignLog, hE]

/-- Witness for C1: two recipients, transport failing exactly for the
second; the persisted log has status `partial`. -/
theorem C1_log_status_classification_witness :
    (findOne (byId "t1") exDB.transcripts = some exT ∧
      pyTruthyStr (resolveSummary exT) = true ∧
      exReq.recipients ≠ []) ∧
    (∃ log : EmailLog,
      (send_email exDB "t1" exReq exTransport true 9 "L9" none).2.email_logs
        = exDB.email_logs ++ [log] ∧
      ((∀ r ∈ exReq.recipients,
          deliveryOk exTransport (subjectFor exReq.subject exT.title)
            (emailBody exT.title (summaryText exT)) r = true) →
        log.status = "sent") ∧
      (((∃ r ∈ exReq.recipients,
          deliveryOk exTransport (subjectFor exReq.subject exT.title)
            (emailBody exT.title (summaryText exT)) r = true) ∧
        (∃ r ∈ exReq.recipients,
          deliveryOk exTransport (subjectFor exReq.subject exT.title)
            (emailBody exT.title (summaryText exT)) r = false)) →
        log.status = "partial") ∧
      log.status ≠ "failed") :=
  ⟨⟨by decide, by decide, by decide⟩,
   (C1_log_status_classification exDB "t1" exReq exTransport 9 "L9" exT
     (by decide) (by decide) (by decide)).1⟩

/-- Claim C4: once the delivery loop is reached, every recipient is
attempted exactly once with no short-circuiting — the returned sent list
is exactly the requested list filtered by delivery success, and the
logged failed list is exactly the requested list filtered by delivery
failure (so each recipient occurrence lands in exactly one of the two
lists, whatever happened for earlier recipients) — and the persisted
EmailLog has status `sent` or `partial` and satisfies
`sent_count + failed_count = len(recipients)`. -/
theorem C4_loop_partition (db : DB) (tid : String) (req : EmailRequest)
    (tr : String → String → String → Except String Unit)
    (now : Nat) (logId : String) (t : Transcript)
    (ht : findOne (byId tid) db.transcripts = some t)
    (hs : pyTruthyStr (resolveSummary t) = true) :
    ∃ (resp : SendResponse) (log : EmailLog),
      (send_email db tid req tr true now logId none).1 = .ok resp ∧
      (send_email db tid req tr true now logId none).2.email_logs
        = db.email_logs ++ [log] ∧
      resp.sent_emails = req.recipients.filter
        (deliveryOk tr (subjectFor req.subject t.title)
          (emailBody t.title (summaryText t))) ∧
      log.failed_emails = some ((req.recipients.filter
        (fun r => !deliveryOk tr (subjectFor req.subject t.title)
          (emailBody t.title (summaryText t)) r)).map
        (fun r => ⟨r, deliveryErr tr (subjectFor req.subject t.title)
          (emailBody t.title (summaryText t)) r⟩)) ∧
      log.sent_count = some resp.sent_emails.length ∧
      (∀ fl, log.failed_emails = some fl → log.failed_count = some fl.length) ∧
      (log.status = "sent" ∨ log.status = "partial") ∧
      (∀ n m, log.sent_count = some n → log.failed_count = some m →
        n + m = req.recipients.length) := by
  rw [send_email_eq_go db tid req tr true now logId t ht hs]
  have hlogs := send_email_go_logs db tid req tr true now logId t (summaryText t)
  rw [if_pos rfl] at hlogs
  refine ⟨_, _,
    send_email_go_fst db tid req tr true now logId t (summaryText t),
    hlogs, ?_, ?_, rfl, ?_, ?_, ?_⟩
  · exact sendLoop_fst tr _ _ req.recipients
  · simp only [campaignLog]
    rw [sendLoop_snd]
  · intro fl hfl
    simp only [campaignLog, Option.some.injEq] at hfl ⊢
    rw [hfl]
  · by_cases hE : (sendLoop tr (subjectFor req.subject t.title)
        (emailBody t.title (summaryText t)) req.recipients).2.isEmpty <;>
      simp [campaignLog, hE]
  · intro n m hn hm
    simp only [campaignLog, Option.some.injEq] at hn hm
    rw [← hn, ← hm]
    exact sendLoop_length tr _ _ req.recipients

/-- Witness for C4: two recipients, the second failing; the counts are
1 and 1 and sum to the request length 2. -/
theorem C4_loop_partition_witness :
    (findOne (byId "t1") exDB.transcripts = some exT ∧
      pyTruthyStr (resolveSummary exT) = true) ∧
    (∃ (resp : SendResponse) (log : EmailLog),
      (send_email exDB "t1" exReq exTransport true 9 "L9" none).1 = .ok resp ∧
      (send_email exDB "t1" exReq exTransport true 9 "L9" none).2.email_logs
        = exDB.email_logs ++ [log] ∧
      resp.sent_emails = exReq.recipients.filter
        (deliveryOk exTransport (subjectFor exReq.subject exT.title)
          (emailBody exT.title (summaryText exT))) ∧
      log.failed_emails = some ((exReq.recipients.filter
        (fun r => !deliveryOk exTransport (subjectFor exReq.subject exT.title)
          (emailBody exT.title (summaryText exT)) r)).map
        (fun r => ⟨r, deliveryErr exTransport (subjectFor exReq.subject exT.title)
          (emailBody exT.title (summaryText exT)) r⟩)) ∧
      log.sent_count = some resp.sent_emails.length ∧
      (∀ fl, log.failed_emails = some fl → log.failed_count = some fl.length) ∧
      (log.status = "sent" ∨ log.status = "partial") ∧
      (∀ n m, log.sent_count = some n → log.failed_count = some m →
        n + m = exReq.recipients.length)) :=
  ⟨⟨by decide, by decide⟩,
   C4_loop_partition exDB "t1" exReq exTransport 9 "L9" exT
     (by decide) (by decide)⟩

/-- Claim C5: on the success path, the returned `sent_emails` list and
`failed_emails` list are each sublists of the requested recipients list,
hence preserve the relative order in which the recipients were
supplied. -/
theorem C5_order_preserved (db : DB) (tid : String) (req : EmailRequest)
    (tr : String → String → String → Except String Unit)
    (logOk : Bool) (now : Nat) (logId : String) (t : Transcript)
    (ht : findOne (byId tid) db.transcripts = some t)
    (hs : pyTruthyStr (resolveSummary t) = true) :
    ∃ resp : SendResponse,
      (send_email db tid req tr logOk now logId none).1 = .ok resp ∧
      List.Sublist resp.sent_emails req.recipients ∧
      ∀ fl, resp.failed_emails = some fl →
        List.Sublist (fl.map FailedEmail.email) req.recipients := by
  rw [send_email_eq_go db tid req tr logOk now logId t ht hs]
  refine ⟨_,
    send_email_go_fst db tid req tr logOk now logId t (summaryText t),
    ?_, ?_⟩
  · show List.Sublist (sendLoop tr (subjectFor req.subject t.title)
      (emailBody t.title (summaryText t)) req.recipients).1 req.recipients
    rw [sendLoop_fst]
    exact List.filter_sublist _
  · intro fl hfl
    by_cases hE : (sendLoop tr (subjectFor req.subject t.title)
        (emailBody t.title (summaryText t)) req.recipients).2.isEmpty
    · simp [hE] at hfl
    · simp only [hE, if_neg, Bool.false_eq_true, not_false_eq_true,
        Option.some.injEq] at hfl
      rw [← hfl, sendLoop_snd, List.map_map]
      have : (FailedEmail.email ∘ fun r => (⟨r, deliveryErr tr
          (subjectFor req.subject t.title)
          (emailBody t.title (summaryText t)) r⟩ : FailedEmail))
          = fun r => r := rfl
      rw [this, List.map_id']
      exact List.filter_sublist _

/-- Witness for C5: ["a@x.com", "b@x.com"] with the second failing;
sent = ["a@x.com"] and failed = ["b@x.com"] are sublists of the
request. -/
theorem C5_order_preserved_witness :
    (findOne (byId "t1") exDB.transcripts = some exT ∧
      pyTruthyStr (resolveSummary exT) = true) ∧
    (∃ resp : SendResponse,
      (send_email exDB "t1" exReq exTransport true 9 "L9" none).1 = .ok resp ∧
      List.Sublist resp.sent_emails exReq.recipients ∧
      ∀ fl, resp.failed_emails = some fl →
        List.Sublist (fl.map FailedEmail.email) exReq.recipients) :=
  ⟨⟨by decide, by decide⟩,
   C5_order_preserved exDB "t1" exReq exTransport true 9 "L9" exT
     (by decide) (by decide)⟩

/-- Claim C6: an invocation that completes the delivery loop persists
exactly one EmailLog record (the store gains exactly that one log), and a
failure of the audit-log insert is swallowed: the caller receives exactly
the same success response whether the log write succeeds or fails (only
the store differs — unchanged when the write fails). -/
theorem C6_log_write_best_effort (db : DB) (tid : String) (req : EmailRequest)
    (tr : String → String → String → Except String Unit)
    (now : Nat) (logId : String) (t : Transcript)
    (ht : findOne (byId tid) db.transcripts = some t)
    (hs : pyTruthyStr (resolveSummary t) = true) :
    ∃ (resp : SendResponse) (log : EmailLog),
      (send_email db tid req tr true now logId none).1 = .ok resp ∧
      (send_email db tid req tr false now logId none).1 = .ok resp ∧
      (send_email db tid req tr true now logId none).2.email_logs
        = db.email_logs ++ [log] ∧
      (send_email db tid req tr false now logId none).2.email_logs
        = db.email_logs := by
  rw [send_email_eq_go db tid req tr true now logId t ht hs,
      send_email_eq_go db tid req tr false now logId t ht hs]
  have h1 := send_email_go_logs db tid req tr true now logId t (summaryText t)
  have h0 := send_email_go_logs db tid req tr false now logId t (summaryText t)
  rw [if_pos rfl] at h1
  rw [if_neg (by simp)] at h0
  exact ⟨_, _,
    send_email_go_fst db tid req tr true now logId t (summaryText t),
    send_email_go_fst db tid req tr false now logId t (summaryText t),
    h1, h0⟩

/-- Witness for C6 at the fixtures: same response with and without a
working log store, one log appended when the write works. -/
theorem C6_log_write_best_effort_witness :
    (findOne (byId "t1") exDB.transcripts = some exT ∧
      pyTruthyStr (resolveSummary exT) = true) ∧
    (∃ (resp : SendResponse) (log : EmailLog),
      (send_email exDB "t1" exReq exTransport true 9 "L9" none).1 = .ok resp ∧
      (send_email exDB "t1" exReq exTransport false 9 "L9" none).1 = .ok resp ∧
      (send_email exDB "t1" exReq exTransport true 9 "L9" none).2.email_logs
        = exDB.email_logs ++ [log] ∧
      (send_email exDB "t1" exReq exTransport false 9 "L9" none).2.email_logs
        = exDB.email_logs) :=
  ⟨⟨by decide, by decide⟩,
   C6_log_write_best_effort exDB "t1" exReq exTransport 9 "L9" exT
     (by decide) (by decide)⟩

theorem deleteOne_eq_none {α : Type} {p : α → Bool} {l : List α}
    (h : ∀ x ∈ l, p x = false) : deleteOne p l = none := by
  induction l with
  | nil => rfl
  | cons x xs ih =>
    have hx : p x = false := h x (by simp)
    simp [deleteOne, hx, ih (fun y hy => h y (by simp [hy]))]

/-- Claim C7: for an existing transcript, the update-edited-summary
operation succeeds and rewrites exactly the found record, setting only
`edited_summary` and `updated_at`; `generated_summary`, `title`,
`original_text`, `custom_prompt`, `id` and `created_at` are unchanged,
the email-log collection and every other transcript are untouched, and
the new `updated_at` is later than `created_at` (the update timestamp is
taken after creation). -/
theorem C7_update_only_edited_summary (db : DB) (tid : String) (e : String)
    (now : Nat) (t : Transcript)
    (ht : findOne (byId tid) db.transcripts = some t)
    (hlt : t.created_at < now) :
    ∃ pre post,
      db.transcripts = pre ++ t :: post ∧
      (update_summary db tid e now).1 = .ok "Summary updated successfully" ∧
      (update_summary db tid e now).2.transcripts
        = pre ++ ({ t with edited_summary := some e, updated_at := some now }) :: post ∧
      (update_summary db tid e now).2.email_logs = db.email_logs ∧
      ({ t with edited_summary := some e, updated_at := some now } : Transcript).generated_summary
        = t.generated_summary ∧
      ({ t with edited_summary := some e, updated_at := some now } : Transcript).title
        = t.title ∧
      ({ t with edited_summary := some e, updated_at := some now } : Transcript).original_text
        = t.original_text ∧
      ({ t with edited_summary := some e, updated_at := some now } : Transcript).custom_prompt
        = t.custom_prompt ∧
      ({ t with edited_summary := some e, updated_at := some now } : Transcript).id
        = t.id ∧
      ({ t with edited_summary := some e, updated_at := some now } : Transcript).created_at
        = t.created_at ∧
      ({ t with edited_summary := some e, updated_at := some now } : Transcript).edited_summary
        = some e ∧
      ({ t with edited_summary := some e, updated_at := some now } : Transcript).updated_at
        = some now ∧
      t.created_at < now := by
  obtain ⟨pre, post, hl, hpre, hpt⟩ := find?_decomp ht
  refine ⟨pre, post, hl, ?_, ?_, ?_, rfl, rfl, rfl, rfl, rfl, rfl, rfl, rfl, hlt⟩
  · simp [update_summary, ht]
  · simp only [update_summary, ht]
    rw [hl]
    exact updateOne_decomp _ post hpre hpt
  · simp [update_summary, ht]

/-- Witness for C7 at fixture `exT` (created at 5, updated at 9). -/
theorem C7_update_only_edited_summary_witness :
    (findOne (byId "t1") exDB.transcripts = some exT ∧ exT.created_at < 9) ∧
    (∃ pre post,
      exDB.transcripts = pre ++ exT :: post ∧
      (update_summary exDB "t1" "edited!" 9).1 = .ok "Summary updated successfully" ∧
      (update_summary exDB "t1" "edited!" 9).2.transcripts
        = pre ++ ({ exT with edited_summary := some "edited!", updated_at := some 9 }) :: post ∧
      (update_summary exDB "t1" "edited!" 9).2.email_logs = exDB.email_logs ∧
      ({ exT with edited_summary := some "edited!", updated_at := some 9 } : Transcript).generated_summary
        = exT.generated_summary ∧
      ({ exT with edited_summary := some "edited!", updated_at := some 9 } : Transcript).title
        = exT.title ∧
      ({ exT with edited_summary := some "edited!", updated_at := some 9 } : Transcript).original_text
        = exT.original_text ∧
      ({ exT with edited_summary := some "edited!", updated_at := some 9 } : Transcript).custom_prompt
        = exT.custom_prompt ∧
      ({ exT with edited_summary := some "edited!", updated_at := some 9 } : Transcript).id
        = exT.id ∧
      ({ exT with edited_summary := some "edited!", updated_at := some 9 } : Transcript).created_at
        = exT.created_at ∧
      ({ exT with edited_summary := some "edited!", updated_at := some 9 } : Transcript).edited_summary
        = some "edited!" ∧
      ({ exT with edited_summary := some "edited!", updated_at := some 9 } : Transcript).updated_at
        = some 9 ∧
      exT.created_at < 9) :=
  ⟨⟨by decide, by decide⟩,
   C7_update_only_edited_summary exDB "t1" "edited!" 9 exT
     (by decide) (by decide)⟩

/-- Claim C8: deleting a non-existent transcript id fails with the 404
NotFound error and changes nothing; deleting an existing one (ids being
unique, as enforced by the startup unique index) removes it, so a
subsequent store fetch finds nothing and the get handler's body raises
the 404 NotFound — while the email-log collection is untouched, so every
previously written EmailLog, including any referencing the deleted id,
remains retrievable. -/
theorem C8_delete_semantics (db : DB) (tid : String) :
    (findOne (byId tid) db.transcripts = none →
      delete_transcript db tid = (.error ⟨404, "Transcript not found"⟩, db)) ∧
    (∀ t, findOne (byId tid) db.transcripts = some t →
      db.transcripts.Pairwise (fun a b => a.id ≠ b.id) →
      (delete_transcript db tid).1 = .ok "Transcript deleted successfully" ∧
      findOne (byId tid) (delete_transcript db tid).2.transcripts = none ∧
      get_transcript_body (delete_transcript db tid).2 tid
        = .error ⟨404, "Transcript not found"⟩ ∧
      (delete_transcript db tid).2.email_logs = db.email_logs) := by
  constructor
  · intro hnone
    have hall : ∀ x ∈ db.transcripts, byId tid x = false := by
      intro x hx
      have := List.find?_eq_none.mp hnone x hx
      simpa using this
    simp [delete_transcript, deleteOne_eq_none hall]
  · intro t ht huniq
    obtain ⟨pre, post, hl, hpre, hpt⟩ := find?_decomp ht
    have hdel : deleteOne (byId tid) db.transcripts = some (pre ++ post) := by
      rw [hl]; exact deleteOne_decomp post hpre hpt
    have htid : t.id = tid := by simpa [byId] using hpt
    have hpost : ∀ x ∈ post, byId tid x = false := by
      rw [hl] at huniq
      have h2 := (List.pairwise_append.mp huniq).2.1
      have h3 := (List.pairwise_cons.mp h2).1
      intro x hx
      have : t.id ≠ x.id := h3 x hx
      simp [byId]
      intro hxe
      exact this (by rw [hxe, htid])
    have hrest : ∀ x ∈ pre ++ post, byId tid x = false := by
      intro x hx
      rcases List.mem_append.mp hx with h | h
      · exact hpre x h
      · exact hpost x h
    have hfind : findOne (byId tid) (pre ++ post) = none :=
      List.find?_eq_none.mpr (fun x hx => by simp [hrest x hx])
    refine ⟨by simp [delete_transcript, hdel], ?_, ?_, by simp [delete_transcript, hdel]⟩
    · simpa [delete_transcript, hdel] using hfind
    · simp [get_transcript_body, delete_transcript, hdel, hfind]

/-- Witness for C8: absent id "zzz" yields 404 and no change; deleting
"t1" from the fixture store works, the refetch hits NotFound, and the
pre-existing log `exLog` (which references "t1") is still in the
store. -/
theorem C8_delete_semantics_witness :
    (findOne (byId "zzz") exDB.transcripts = none ∧
      delete_transcript exDB "zzz" = (.error ⟨404, "Transcript not found"⟩, exDB)) ∧
    (findOne (byId "t1") exDB.transcripts = some exT ∧
      exDB.transcripts.Pairwise (fun a b => a.id ≠ b.id) ∧
      (delete_transcript exDB "t1").1 = .ok "Transcript deleted successfully" ∧
      findOne (byId "t1") (delete_transcript exDB "t1").2.transcripts = none ∧
      get_transcript_body (delete_transcript exDB "t1").2 "t1"
        = .error ⟨404, "Transcript not found"⟩ ∧
      (delete_transcript exDB "t1").2.email_logs = exDB.email_logs) :=
  ⟨⟨by decide, (C8_delete_semantics exDB "zzz").1 (by decide)⟩,
   ⟨by decide, by decide,
    (C8_delete_semantics exDB "t1").2 exT (by decide) (by decide)⟩⟩

/-- Claim C9: creating a transcript with a fresh id and then fetching it
by that id yields the created record, whose `original_text` is the
requested text and whose `generated_summary` and `edited_summary` are
both null. -/
theorem C9_create_then_fetch (db : DB) (req : TranscriptCreate)
    (newId : String) (now : Nat)
    (hfresh : ∀ t ∈ db.transcripts, t.id ≠ newId) :
    ∃ doc : Transcript,
      (create_transcript db req newId now).1 = .ok doc ∧
      get_transcript (create_transcript db req newId now).2 newId = .ok doc ∧
      doc.original_text = req.original_text ∧
      doc.generated_summary = none ∧
      doc.edited_summary = none := by
  have hany : db.transcripts.any (fun t => t.id == newId) = false := by
    rw [List.any_eq_false]
    intro x hx
    simp [hfresh x hx]
  refine ⟨{ id := newId, title := req.title, original_text := req.original_text,
            custom_prompt := req.custom_prompt, generated_summary := none,
            edited_summary := none, created_at := now, updated_at := none },
    ?_, ?_, rfl, rfl, rfl⟩
  · simp [create_transcript, hany]
  · have htr : (create_transcript db req newId now).2.transcripts
        = db.transcripts ++
          [{ id := newId, title := req.title, original_text := req.original_text,
             custom_prompt := req.custom_prompt, generated_summary := none,
             edited_summary := none, created_at := now, updated_at := none }] := by
      simp [create_transcript, hany]
    have hfind : findOne (byId newId)
        (create_transcript db req newId now).2.transcripts
        = some { id := newId, title := req.title, original_text := req.original_text,
                 custom_prompt := req.custom_prompt, generated_summary := none,
                 edited_summary := none, created_at := now, updated_at := none } := by
      rw [htr, findOne,
        find?_append_notfound (fun x hx => by simp [byId, hfresh x hx])]
      simp [byId]
    simp [get_transcript, get_transcript_body, hfind]

/-- Witness for C9: creating ("T", "X") in the fixture store under fresh
id "t9" and refetching it. -/
theorem C9_create_then_fetch_witness :
    (∀ t ∈ exDB.transcripts, t.id ≠ "t9") ∧
    (∃ doc : Transcript,
      (create_transcript exDB ⟨"T", "X", some defaultPrompt⟩ "t9" 9).1 = .ok doc ∧
      get_transcript (create_transcript exDB ⟨"T", "X", some defaultPrompt⟩ "t9" 9).2 "t9"
        = .ok doc ∧
      doc.original_text = "X" ∧
      doc.generated_summary = none ∧
      doc.edited_summary = none) :=
  ⟨by decide,
   C9_create_then_fetch exDB ⟨"T", "X", some defaultPrompt⟩ "t9" 9 (by decide)⟩

end MeetingNotes
